import Mathlib

/-!
Shallow embedding of the aspect-reauth credential synchroniser.

The Rust sources embedded here are:
* src/ssh_mux/config.rs  — socket-policy inference (ssh -G query);
* src/ssh_mux/temp_socket.rs — the private control-socket temp directory;
* src/ssh_mux/mod.rs     — the SSH multiplexer (SshMux);
* src/main.rs            — the refresh orchestrator (async_main, needs_refresh,
                           get_credential / set_credential adapters).

Subprocess and filesystem effects are embedded by explicit state passing: an
Env record supplies the outcome of every external interaction at its call
site, and the run produces an event trace recording each subprocess
invocation (with the bytes written to its input), each temporary-directory
creation and removal, each warning and each printed message.
-/

namespace AspectReauth

/-- Outcome of a finished subprocess whose standard error was captured:
exit-status success flag and the captured standard-error text. -/
structure Output where
  success : Bool
  stderr : String
deriving Repr, DecidableEq

/-- Outcome of the read-only configuration query subprocess:
exit-status success flag and its standard output, already split into
whether it decodes as UTF-8 (`some` text) or not (`none`). -/
structure GOutput where
  success : Bool
  stdoutUtf8 : Option String
deriving Repr, DecidableEq

/-! ### Rust `str::lines` -/

/-- Strip one trailing carriage return, as Rust's `str::lines` does per line. -/
def stripTrailingCR (s : String) : String :=
  if s.endsWith "\r" then s.dropRight 1 else s

/-- Rust's `str::lines`: split on newline, drop a final empty segment
produced by a trailing newline, strip a trailing carriage return per line. -/
def rustLines (s : String) : List String :=
  let parts := s.splitOn "\n"
  let parts := if parts.getLast? = some "" then parts.dropLast else parts
  parts.map stripTrailingCR

/-! ### SocketPolicyResolver (src/ssh_mux/config.rs, infer_create_socket) -/

/-- src/ssh_mux/config.rs `infer_create_socket`: runs `ssh -G -- host`
(outcome supplied as `q`; `none` models a spawn error). Returns `false` on
spawn error, on non-zero exit, and on non-UTF-8 output; otherwise returns
`true` exactly when no output line equals `controlmaster auto`. -/
def infer_create_socket (_host : String) (q : Option GOutput) : Bool :=
  match q with
  | none => false
  | some o =>
    if !o.success then false
    else
      match o.stdoutUtf8 with
      | none => false
      | some out => !((rustLines out).any (fun line => line = "controlmaster auto"))

/-! ### The helper "please run ... login" pattern (src/main.rs, needs_refresh)

The source tests the captured standard error against the regex
`(?mis)please\s+run.*<helper>\s+login` (helper inserted literally via
regex escaping): case-insensitive, with `.` allowed to span lines.
We embed the match as an executable search, folding case at the ASCII
level (the case folding the claims exercise). -/

/-- ASCII whitespace class used for the regex `\s`. -/
def isSpaceChar (c : Char) : Bool :=
  c = ' ' || c = '\t' || c = '\n' || c = '\r' || c = '\x0b' || c = '\x0c'

/-- Consume the literal `lit` from the front of `s`; return the rest. -/
def dropLit : List Char → List Char → Option (List Char)
  | [], s => some s
  | _, [] => none
  | l :: ls, c :: cs => if c = l then dropLit ls cs else none

/-- All suffixes of `s` obtained by consuming one or more whitespace
characters from the front — the regex `\s+`. -/
def wsPlusSuffixes : List Char → List (List Char)
  | [] => []
  | c :: cs => if isSpaceChar c then cs :: wsPlusSuffixes cs else []

/-- Match `<helper>\s+login` at the front of `s`. -/
def matchHelperLogin (helper : List Char) (s : List Char) : Bool :=
  match dropLit helper s with
  | none => false
  | some rest =>
    (wsPlusSuffixes rest).any (fun r => (dropLit "login".toList r).isSome)

/-- Match `.*<helper>\s+login` at the front of `s` (dot spans lines). -/
def matchDotStarHelperLogin (helper : List Char) (s : List Char) : Bool :=
  s.tails.any (matchHelperLogin helper)

/-- Match `please\s+run.*<helper>\s+login` at the front of `s`. -/
def matchPleaseRun (helper : List Char) (s : List Char) : Bool :=
  match dropLit "please".toList s with
  | none => false
  | some r1 =>
    (wsPlusSuffixes r1).any (fun r2 =>
      match dropLit "run".toList r2 with
      | none => false
      | some r3 => matchDotStarHelperLogin helper r3)

/-- The unanchored, case-insensitive search of the source's regex
`(?mis)please\s+run.*<helper>\s+login` over the captured error text. -/
def loginPatternMatch (helper stderr : String) : Bool :=
  let h := helper.toList.map Char.toLower
  let t := stderr.toList.map Char.toLower
  t.tails.any (matchPleaseRun h)

/-! ### Error taxonomy of the run (anyhow errors of src/main.rs, src/ssh_mux) -/

/-- The fatal errors the run can end with, mirroring the bail/context sites. -/
inductive RunError where
  /-- A subprocess could not be spawned or awaited (`with_context` sites). -/
  | spawnError (msg : String)
  /-- The control-socket temporary directory could not be created. -/
  | fsError (msg : String)
  /-- The initial ssh control-master run exited non-zero (carries stderr). -/
  | connectionError (stderr : String)
  /-- The credential helper's `login` subcommand exited non-zero. -/
  | loginError (helper : String)
  /-- The helper's `get` probe exited non-zero with an unrecognised error
  text; carries the helper name and the captured error text. -/
  | helperProtocolError (helper : String) (stderr : String)
  /-- A keychain read or write failed; names the affected service. -/
  | keychainError (service : String)
  /-- The remote `keyctl padd` exited non-zero (carries remote stderr). -/
  | remoteSyncError (stderr : String)
  /-- The post-push re-check still reported "needs refresh"; this is the
  distinct "Try rerunning with --force" failure. -/
  | stillInvalid (host : String)
deriving Repr, DecidableEq

/-! ### needs_refresh (src/main.rs lines 185-223), decision part

The subprocess plumbing is embedded separately (`needsRefreshRun` below);
this is the pure decision on the finished probe's outcome. -/

/-- src/main.rs `needs_refresh`, decision on the probe outcome: exit
success gives `false`; on failure, a standard-error text matching the
"please run `<helper>` login" pattern gives `true`, and anything else is a
`helperProtocolError` carrying the captured error text. -/
def needs_refresh (helper : String) (out : Output) : Except RunError Bool :=
  if out.success then .ok false
  else if loginPatternMatch helper out.stderr then .ok true
  else .error (.helperProtocolError helper out.stderr)

/-! ### Command builder (smol::process::Command argv assembly) -/

/-- A command being assembled: program name and argument vector, mirroring
the builder calls `Command::new`, `.arg`, `.args` of the source. -/
structure Cmd where
  prog : String
  argv : List String
deriving Repr, DecidableEq

/-- `Command::new(prog)`. -/
def Cmd.new (prog : String) : Cmd := ⟨prog, []⟩

/-- `.arg(a)`. -/
def Cmd.arg (c : Cmd) (a : String) : Cmd := ⟨c.prog, c.argv ++ [a]⟩

/-- `.args(l)`. -/
def Cmd.args (c : Cmd) (l : List String) : Cmd := ⟨c.prog, c.argv ++ l⟩

/-- The full invocation: program followed by its arguments. -/
def Cmd.argvFull (c : Cmd) : List String := c.prog :: c.argv

/-! ### Observable events of a run -/

/-- The externally observable actions of a run: subprocess invocations
(with the data written to their input streams, `none` when the input was
never written because the spawn failed or the stream was null), creation
and removal of the control-socket temporary directory, warnings printed to
standard error, and messages printed to standard output. -/
inductive Event where
  /-- The control-socket temporary directory was created. -/
  | mkTree (dir : String)
  /-- A directory tree was removed (`remove_dir_all` in TempSocket::drop). -/
  | removeTree (dir : String)
  /-- The initial ssh control-master/bootstrap run (SshMux::new). -/
  | masterRun (argv : List String)
  /-- A credential-helper `get` probe (needs_refresh). -/
  | probeRun (argv : List String) (stdinData : Option String)
  /-- The credential-helper `login` run. -/
  | loginRun (argv : List String)
  /-- The remote `keyctl padd` push. -/
  | pushRun (argv : List String) (stdinData : Option String)
  /-- The `ssh -Oexit` control-master teardown (SshMux::cleanup). -/
  | teardownRun (argv : List String)
  /-- A non-fatal warning printed to standard error. -/
  | warn (msg : String)
  /-- A message printed to standard output. -/
  | printMsg (msg : String)
deriving Repr, DecidableEq

/-- Is this event a credential-helper probe invocation? -/
def isProbeEvent : Event → Bool
  | .probeRun _ _ => true
  | _ => false

/-- Is this event a remote `keyctl padd` push invocation? -/
def isPushEvent : Event → Bool
  | .pushRun _ _ => true
  | _ => false

/-- Is this event a control-master teardown invocation? -/
def isTeardownEvent : Event → Bool
  | .teardownRun _ => true
  | _ => false

/-- Does this event leave the set of on-disk temporary directories alone? -/
def treeNeutral : Event → Bool
  | .mkTree _ => false
  | .removeTree _ => false
  | _ => true

/-- Fold a trace over a set of on-disk directories: `mkTree` adds the
directory, `removeTree` deletes it, everything else is neutral. -/
def dirsAfter : List Event → List String → List String
  | [], acc => acc
  | .mkTree d :: es, acc => dirsAfter es (acc ++ [d])
  | .removeTree d :: es, acc => dirsAfter es (acc.filter (fun x => x ≠ d))
  | _ :: es, acc => dirsAfter es acc

/-! ### External-world outcomes for one run

Each field supplies the outcome of one external interaction at its call
site in the source; `Except.error` models the fallible operation failing
(spawn error, keychain error, filesystem error) with its message. -/

/-- Outcomes of all external interactions of a single run. -/
structure Env where
  /-- `ssh -G -- host` outcome (src/ssh_mux/config.rs); `none` = spawn error. -/
  gquery : Option GOutput
  /-- TempSocket::new outcome: the temporary directory path, or an error. -/
  tempdir : Except String String
  /-- The initial ssh control-master/bootstrap run (SshMux::new). -/
  master : Except String Output
  /-- The local credential-helper `get` probe. -/
  localProbe : Except String Output
  /-- The helper `login` run: exit-status success flag, or a spawn error. -/
  login : Except String Bool
  /-- get_credential("AspectWorkflows") in the login branch. -/
  getAW1 : Except String String
  /-- set_credential("aspect-reauth") in the login branch. -/
  setAR1 : Except String Unit
  /-- The remote credential-helper `get` probe (through the session). -/
  remoteProbe : Except String Output
  /-- get_credential("aspect-reauth") before the push. -/
  getAR : Except String String
  /-- Fallback get_credential("AspectWorkflows") before the push. -/
  getAW2 : Except String String
  /-- Fallback re-sync set_credential("aspect-reauth") before the push. -/
  setAR2 : Except String Unit
  /-- The remote `keyctl padd` run (spawn/write failure or its output). -/
  push : Except String Output
  /-- The post-push remote `get` re-check probe. -/
  recheck : Except String Output
  /-- The `ssh -Oexit` teardown run at drop time. -/
  teardown : Except String Unit

/-! ### SshMux (src/ssh_mux/mod.rs) and TempSocket (src/ssh_mux/temp_socket.rs) -/

/-- The tri-state `--create-socket` policy (src/ssh_mux/mod.rs). -/
inductive CreateSocket where
  | Infer
  | Specify (b : Bool)
deriving Repr, DecidableEq

/-- src/ssh_mux/mod.rs `CreateSocket::into_option_bool`. -/
def CreateSocket.into_option_bool : CreateSocket → Option Bool
  | .Infer => none
  | .Specify b => some b

/-- The socket path inside a TempSocket's directory: `<dir>/sock`
(src/ssh_mux/temp_socket.rs `from_tempdir`). -/
def sockPath (dir : String) : String := dir ++ "/sock"

/-- The state of an SshMux session: host, extra ssh arguments, and the
directory of its private control socket when it owns one (the TempSocket;
the path handed to ssh is `sockPath`). -/
structure SshMuxSt where
  host : String
  ssh_args : List String
  socket : Option String
deriving Repr, DecidableEq

/-- src/ssh_mux/mod.rs `SshMux::command`: builds
`ssh <ssh_args> [-S <socketPath>] -xT -oPermitLocalCommand=no
-oClearAllForwardings=yes -oRemoteCommand=none -oForwardAgent=no
-oBatchMode=yes -- <host> <command>`. -/
def SshMuxSt.command (m : SshMuxSt) (command : String) : Cmd :=
  let ret := Cmd.new "ssh"
  let ret := ret.args m.ssh_args
  let ret := match m.socket with
    | some d => (ret.arg "-S").arg (sockPath d)
    | none => ret
  ret.args ["-xT", "-oPermitLocalCommand=no", "-oClearAllForwardings=yes",
    "-oRemoteCommand=none", "-oForwardAgent=no", "-oBatchMode=yes", "--",
    m.host, command]

/-- The full argv of a session-built command. -/
def SshMuxSt.commandArgv (m : SshMuxSt) (c : String) : List String :=
  (m.command c).argvFull

/-- src/ssh_mux/mod.rs `SshMux::cleanup`: takes the socket out of the
session (so a second call finds none and returns at once), runs
`ssh <ssh_args> -S <socketPath> -Oexit -- <host>` — a spawn/await failure
is the only error; the exit status is ignored — and drops the TempSocket,
removing its directory. Returns the new state, the events, and the result. -/
def SshMuxSt.cleanup (m : SshMuxSt) (spawn : Except String Unit) :
    SshMuxSt × List Event × Except RunError Unit :=
  match m.socket with
  | none => (m, [], .ok ())
  | some d =>
    ({ m with socket := none },
     [.teardownRun ((((((Cmd.new "ssh").args m.ssh_args).arg "-S").arg
        (sockPath d)).args ["-Oexit", "--", m.host]).argvFull),
      .removeTree d],
     match spawn with
     | .ok _ => .ok ()
     | .error e => .error (.spawnError e))

/-- src/ssh_mux/mod.rs `Drop for SshMux`: run cleanup; on error only print
a warning. Only the events remain observable. -/
def SshMux_drop (m : SshMuxSt) (teardown : Except String Unit) : List Event :=
  match m.cleanup teardown with
  | (_, tr, .ok _) => tr
  | (_, tr, .error _) => tr ++ [.warn "cleanup ssh"]

/-- Shared tail of src/ssh_mux/mod.rs `SshMux::new` once the socket
decision is made: build the initial ssh invocation (with the
`-xMTS <socketPath> -oControlPersist=yes ...` block exactly when a private
socket was created), run it, and fail with a connectionError carrying the
captured standard error on non-zero exit. On every failure path a created
TempSocket is dropped, removing its directory. -/
def SshMux_finish (host : String) (ssh_args : List String)
    (socket : Option String) (env : Env) :
    Except RunError SshMuxSt × List Event :=
  let cmd := (Cmd.new "ssh").args ssh_args
  let cmd := match socket with
    | some d => ((cmd.arg "-xMTS").arg (sockPath d)).args
        ["-oControlPersist=yes", "-oPermitLocalCommand=no",
         "-oClearAllForwardings=yes", "-oRemoteCommand=none",
         "-oForwardAgent=no", "-oBatchMode=yes"]
    | none => cmd
  let cmd := cmd.args ["--", host, "true"]
  let mkTr : List Event := match socket with
    | some d => [.mkTree d]
    | none => []
  let dropTr : List Event := match socket with
    | some d => [.removeTree d]
    | none => []
  match env.master with
  | .error e => (.error (.spawnError e), mkTr ++ [.masterRun cmd.argvFull] ++ dropTr)
  | .ok out =>
    if out.success then
      (.ok ⟨host, ssh_args, socket⟩, mkTr ++ [.masterRun cmd.argvFull])
    else
      (.error (.connectionError out.stderr), mkTr ++ [.masterRun cmd.argvFull] ++ dropTr)

/-- src/ssh_mux/mod.rs `SshMux::new`: decide whether to create a private
socket (explicit policy, or `infer_create_socket` for Infer), create the
TempSocket when called for (its failure aborts construction), then run the
initial ssh (SshMux_finish). -/
def SshMux_new (host : String) (ssh_args : List String) (cs : CreateSocket)
    (env : Env) : Except RunError SshMuxSt × List Event :=
  let create : Bool :=
    match cs.into_option_bool with
    | some v => v
    | none => infer_create_socket host env.gquery
  match create, env.tempdir with
  | true, .error e => (.error (.fsError e), [])
  | true, .ok d => SshMux_finish host ssh_args (some d) env
  | false, _ => SshMux_finish host ssh_args none env

/-! ### The orchestrator (src/main.rs) -/

/-- The parsed command-line arguments the core consumes, after the
`no_create_socket` / `force` normalisation at the top of async_main. -/
structure Args where
  host : String
  remote : String
  credential_helper : String
  force_local : Bool
  force_remote : Bool
  session_keyring : Bool
  create_socket : CreateSocket
  ssh_args : List String
deriving Repr, DecidableEq

/-- The single probe line written to the helper's input:
`{"uri":"https://<remote>"}` followed by a newline. -/
def jsonLine (remote : String) : String :=
  "\x7b\"uri\":\"https://" ++ remote ++ "\"\x7d\n"

/-- src/main.rs `needs_refresh`, subprocess plumbing: run the built command
with `get` appended, write the probe line to its input, close it, await the
output, and decide with `needs_refresh`. `base` is the command built by the
caller-supplied builder (either `[helper]` locally or the session's
`command(helper)` remotely). A spawn/await failure is a spawnError. -/
def needsRefreshRun (base : Cmd) (helper remote : String)
    (probe : Except String Output) : Except RunError Bool × List Event :=
  let argv := (base.arg "get").argvFull
  match probe with
  | .error e => (.error (.spawnError e), [.probeRun argv none])
  | .ok out => (needs_refresh helper out, [.probeRun argv (some (jsonLine remote))])

/-- src/main.rs lines 110-125: run `<helper> login <remote>` (non-zero exit
is fatal), fetch the fresh password from the keychain service
"AspectWorkflows" (failure is fatal, names the service), and store it under
"aspect-reauth" (failure is fatal, names the service). -/
def loginPhase (a : Args) (env : Env) : Except RunError Unit × List Event :=
  let tr : List Event :=
    [.loginRun (((Cmd.new a.credential_helper).arg "login").arg a.remote).argvFull]
  match env.login with
  | .error e => (.error (.spawnError e), tr)
  | .ok false => (.error (.loginError a.credential_helper), tr)
  | .ok true =>
    match env.getAW1 with
    | .error _ => (.error (.keychainError "AspectWorkflows"), tr)
    | .ok _ =>
      match env.setAR1 with
      | .error _ => (.error (.keychainError "aspect-reauth"), tr)
      | .ok _ => (.ok (), tr)

/-- src/main.rs line 109 and the login branch: `force_local` short-circuits
the local probe; otherwise the local helper `get` probe decides; when a
refresh is needed the login phase runs. -/
def localPhase (a : Args) (env : Env) : Except RunError Unit × List Event :=
  match (if a.force_local then ((.ok true : Except RunError Bool), ([] : List Event))
         else needsRefreshRun (Cmd.new a.credential_helper) a.credential_helper
           a.remote env.localProbe) with
  | (.error e, tr) => (.error e, tr)
  | (.ok false, tr) => (.ok (), tr)
  | (.ok true, tr) =>
    match loginPhase a env with
    | (r, tr2) => (r, tr ++ tr2)

/-- src/main.rs lines 104-108 and 127: the remote freshness decision —
`force_remote` short-circuits the remote probe; otherwise the helper `get`
probe runs through the session's command builder. -/
def remoteCheck (a : Args) (m : SshMuxSt) (probe : Except String Output) :
    Except RunError Bool × List Event :=
  if a.force_remote then (.ok true, [])
  else needsRefreshRun (m.command a.credential_helper) a.credential_helper
    a.remote probe

/-- src/main.rs lines 132-143: obtain the password to push. A successful
fetch of "aspect-reauth" is used directly; on its failure the code falls
back to fetching "AspectWorkflows" (whose failure is fatal, naming the
service) and re-stores it under "aspect-reauth", downgrading a store
failure to a printed warning. -/
def resolvePassword (_a : Args) (env : Env) :
    Except RunError String × List Event :=
  match env.getAR with
  | .ok p => (.ok p, [])
  | .error _ =>
    match env.getAW2 with
    | .error _ => (.error (.keychainError "AspectWorkflows"), [])
    | .ok p =>
      match env.setAR2 with
      | .error e => (.ok p, [.warn ("failed to sync aspect-reauth password:\n" ++ e)])
      | .ok _ => (.ok p, [])

/-- The deterministic remote key name `keyring-rs:<remote>@AspectWorkflows`
(src/main.rs line 145). -/
def keyName (remote : String) : String :=
  "keyring-rs:" ++ remote ++ "@AspectWorkflows"

/-- The keyring selector: `@s` for the session keyring, `@u` otherwise
(src/main.rs line 146). -/
def keychainSel (session_keyring : Bool) : String :=
  if session_keyring then "@s" else "@u"

/-- src/main.rs lines 145-176: the push and the single re-check. Build
`session.command("keyctl")` with args `padd user <keyName> <selector>`,
write exactly the password bytes to its input and close it; a non-zero exit
is fatal with the captured remote error text. On success re-run the remote
freshness probe once; if it still reports "needs refresh", fail with the
distinct "Try rerunning with --force" error. -/
def syncPhase (a : Args) (m : SshMuxSt) (password : String) (env : Env) :
    Except RunError Unit × List Event :=
  let argv := ((m.command "keyctl").args
    ["padd", "user", keyName a.remote, keychainSel a.session_keyring]).argvFull
  match env.push with
  | .error e => (.error (.spawnError e), [.pushRun argv none])
  | .ok out =>
    if !out.success then
      (.error (.remoteSyncError out.stderr), [.pushRun argv (some password)])
    else
      match needsRefreshRun (m.command a.credential_helper) a.credential_helper
          a.remote env.recheck with
      | (.error e, tr) => (.error e, .pushRun argv (some password) :: tr)
      | (.ok true, tr) =>
        (.error (.stillInvalid a.host), .pushRun argv (some password) :: tr)
      | (.ok false, tr) =>
        (.ok (), .pushRun argv (some password) :: tr ++
          [.printMsg ("Aspect credentials synced to " ++ a.host ++ ". Have a nice day.")])

/-- src/main.rs async_main after session construction: local phase (probe
and conditional login), then the remote freshness decision; when no remote
refresh is needed print the "not needed" message and stop; otherwise
resolve the password and run the push-and-recheck phase. -/
def mainBody (a : Args) (m : SshMuxSt) (env : Env) :
    Except RunError Unit × List Event :=
  match localPhase a env with
  | (.error e, tr) => (.error e, tr)
  | (.ok _, tr) =>
    match remoteCheck a m env.remoteProbe with
    | (.error e, tr1) => (.error e, tr ++ tr1)
    | (.ok false, tr1) =>
      (.ok (), tr ++ tr1 ++ [.printMsg "Credential refresh not needed. Have a nice day."])
    | (.ok true, tr1) =>
      match resolvePassword a env with
      | (.error e, tr2) => (.error e, tr ++ tr1 ++ tr2)
      | (.ok pw, tr2) =>
        match syncPhase a m pw env with
        | (res, tr3) => (res, tr ++ tr1 ++ tr2 ++ tr3)

/-- src/main.rs `async_main` end to end: construct the session (any
construction failure is the run's failure), run the body, and — on every
path — drop the session, which tears down the control master and removes
the control-socket temporary directory. -/
def runMain (a : Args) (env : Env) : Except RunError Unit × List Event :=
  match SshMux_new a.host a.ssh_args a.create_socket env with
  | (.error e, tr) => (.error e, tr)
  | (.ok m, tr0) =>
    match mainBody a m env with
    | (res, tr1) => (res, tr0 ++ tr1 ++ SshMux_drop m env.teardown)

/-! ## Shared lemmas -/

/-- Flattened form of the session command builder's argv. -/
theorem commandArgv_eq (m : SshMuxSt) (c : String) :
    m.commandArgv c =
      ["ssh"] ++ m.ssh_args ++
        (match m.socket with | some d => ["-S", sockPath d] | none => []) ++
        ["-xT", "-oPermitLocalCommand=no", "-oClearAllForwardings=yes",
         "-oRemoteCommand=none", "-oForwardAgent=no", "-oBatchMode=yes",
         "--", m.host, c] := by
  cases m with
  | mk host ssh_args socket =>
    cases socket <;>
      simp [SshMuxSt.commandArgv, SshMuxSt.command, Cmd.new, Cmd.arg, Cmd.args,
        Cmd.argvFull]

/-! ## C1 — socket-policy inference -/

/-- C1 counterexample: the claim says that when the configuration query
fails, resolving Infer returns true (create a private socket); but
`infer_create_socket` returns false on a query spawn failure (modelled by
`none`), exactly as its own doc comment in src/ssh_mux/config.rs states. -/
theorem infer_failure_counterexample :
    ¬ (infer_create_socket "devbox" none = true) := by
  decide

/-- C1 (amended): resolving the socket policy Infer returns true (create a
private socket) iff the configuration query succeeds, exits zero, its
output decodes as UTF-8, and no output line equals `controlmaster auto`;
in every other case — spawn failure, non-zero exit, non-decodable output,
or a `controlmaster auto` line — it returns false. -/
theorem infer_create_socket_spec (host : String) (q : Option GOutput) :
    infer_create_socket host q = true ↔
      ∃ o : GOutput, q = some o ∧ o.success = true ∧
        ∃ s : String, o.stdoutUtf8 = some s ∧
          "controlmaster auto" ∉ rustLines s := by
  cases q with
  | none => simp [infer_create_socket]
  | some o =>
    cases hs : o.success with
    | false => simp [infer_create_socket, hs]
    | true =>
      cases hu : o.stdoutUtf8 with
      | none => simp [infer_create_socket, hs, hu]
      | some s =>
        simp [infer_create_socket, hs, hu, List.any_eq_true]
        constructor
        · intro h hmem
          exact h _ hmem rfl
        · intro h x hx heq
          exact h (heq ▸ hx)

/-! ## C2 — needs_refresh decision -/

/-- C2: the probe's exit success gives `false` regardless of its error
output; a non-zero exit whose captured error text matches the
case-insensitive, line-spanning "please run `<helper>` login" pattern gives
`true`; any other non-zero exit fails with a helperProtocolError carrying
the captured error text, and is never treated as "needs login". -/
theorem needs_refresh_spec (helper : String) (out : Output) :
    (out.success = true → needs_refresh helper out = .ok false) ∧
    (out.success = false → loginPatternMatch helper out.stderr = true →
      needs_refresh helper out = .ok true) ∧
    (out.success = false → loginPatternMatch helper out.stderr = false →
      needs_refresh helper out =
        .error (.helperProtocolError helper out.stderr)) := by
  refine ⟨fun h1 => by simp [needs_refresh, h1],
    fun h1 h2 => by simp [needs_refresh, h1, h2],
    fun h1 h2 => by simp [needs_refresh, h1, h2]⟩

/-- C2 witness: the three behaviours at concrete probe outcomes. -/
theorem needs_refresh_spec_witness :
    needs_refresh "myhelper" ⟨true, "already failed once"⟩ = .ok false ∧
    needs_refresh "myhelper" ⟨false, "Please  run\nMyHelper\tLOGIN to continue"⟩ = .ok true ∧
    needs_refresh "myhelper" ⟨false, "permission denied"⟩ =
      .error (.helperProtocolError "myhelper" "permission denied") :=
  ⟨(needs_refresh_spec "myhelper" ⟨true, "already failed once"⟩).1 rfl,
   (needs_refresh_spec "myhelper"
      ⟨false, "Please  run\nMyHelper\tLOGIN to continue"⟩).2.1 rfl (by decide),
   (needs_refresh_spec "myhelper" ⟨false, "permission denied"⟩).2.2 rfl (by decide)⟩

/-! ## C6 — the session command builder -/

/-- C6: for every session and remote command, `command` builds exactly
`ssh <extraArgs> [-S <socketPath>] -xT -oPermitLocalCommand=no
-oClearAllForwardings=yes -oRemoteCommand=none -oForwardAgent=no
-oBatchMode=yes -- <host> <remoteCommand>`, with the `-S <socketPath>` pair
present iff the session owns a private control socket, in this order. -/
theorem sshmux_command_spec (host : String) (ssh_args : List String)
    (socket : Option String) (c : String) :
    (SshMuxSt.mk host ssh_args socket).commandArgv c =
      ["ssh"] ++ ssh_args ++
        (match socket with | some d => ["-S", sockPath d] | none => []) ++
        ["-xT", "-oPermitLocalCommand=no", "-oClearAllForwardings=yes",
         "-oRemoteCommand=none", "-oForwardAgent=no", "-oBatchMode=yes",
         "--", host, c] :=
  commandArgv_eq ⟨host, ssh_args, socket⟩ c

/-! ## C7 — cleanup idempotence -/

/-- C7: cleanup is idempotent — calling it twice issues at most one
teardown invocation (exactly one when the session owned a private socket,
none when it never did), and the second call spawns nothing and returns
successfully. -/
theorem cleanup_idempotent (m : SshMuxSt) (r1 r2 : Except String Unit) :
    ((m.cleanup r1).1.cleanup r2).2.2 = .ok () ∧
    ((m.cleanup r1).1.cleanup r2).2.1 = [] ∧
    (m.cleanup r1).2.1.countP isTeardownEvent =
      (if m.socket.isSome then 1 else 0) := by
  cases m with
  | mk host ssh_args socket =>
    cases socket <;>
      simp [SshMuxSt.cleanup, isTeardownEvent, List.countP, List.countP.go]

/-! ## C10 — command after cleanup -/

/-- C10: after cleanup on a session that owned a private socket, command
remains callable and builds the same invocation for the same host and
extra arguments, silently without the `-S <socketPath>` pair; nothing
rejects command construction after teardown. -/
theorem command_after_cleanup (host : String) (ssh_args : List String)
    (d : String) (r : Except String Unit) (c : String) :
    ((SshMuxSt.mk host ssh_args (some d)).cleanup r).1.commandArgv c =
      ["ssh"] ++ ssh_args ++
        ["-xT", "-oPermitLocalCommand=no", "-oClearAllForwardings=yes",
         "-oRemoteCommand=none", "-oForwardAgent=no", "-oBatchMode=yes",
         "--", host, c] := by
  have h := commandArgv_eq ⟨host, ssh_args, none⟩ c
  simp only [SshMuxSt.cleanup]
  simpa using h

/-! ## C4 — keychain failure policy -/

/-- C4 counterexample: a run in which the keychain fetch of "aspect-reauth"
fails (`.error "keychain locked"`) and the keychain store of
"aspect-reauth" fails (`.error "store failed"`), yet the run succeeds:
the fetch failure is worked around by the fallback fetch of
"AspectWorkflows" and the store failure is absorbed as a warning, so not
every keychain failure is fatal. -/
theorem keychain_fatal_counterexample :
    (runMain
      ⟨"devbox", "x.example.com", "helper", false, true, false,
        .Specify false, []⟩
      ⟨none, .error "unused", .ok ⟨true, ""⟩, .ok ⟨true, ""⟩, .ok true,
        .ok "secret123", .ok (), .ok ⟨true, ""⟩, .error "keychain locked",
        .ok "secret123", .error "store failed", .ok ⟨true, ""⟩,
        .ok ⟨true, ""⟩, .ok ()⟩).1 = .ok () := by
  rfl

/-- C4 (amended): keychain failures are fatal with a KeychainError naming
the affected credential except on the cached-credential path: in the login
branch, a failed fetch of "AspectWorkflows" and a failed store of
"aspect-reauth" are both fatal; before the push, a failed fetch of the
cached "aspect-reauth" credential falls back to fetching "AspectWorkflows"
(whose failure is fatal), and a failure of the subsequent re-store of
"aspect-reauth" is absorbed as a printed warning. -/
theorem keychain_error_policy (a : Args) (env : Env) :
    (∀ e, env.login = .ok true → env.getAW1 = .error e →
      (loginPhase a env).1 = .error (.keychainError "AspectWorkflows")) ∧
    (∀ p e, env.login = .ok true → env.getAW1 = .ok p →
      env.setAR1 = .error e →
      (loginPhase a env).1 = .error (.keychainError "aspect-reauth")) ∧
    (∀ e e2, env.getAR = .error e → env.getAW2 = .error e2 →
      (resolvePassword a env).1 = .error (.keychainError "AspectWorkflows")) ∧
    (∀ e p, env.getAR = .error e → env.getAW2 = .ok p →
      (resolvePassword a env).1 = .ok p) ∧
    (∀ e p e2, env.getAR = .error e → env.getAW2 = .ok p →
      env.setAR2 = .error e2 →
      (resolvePassword a env).2 =
        [.warn ("failed to sync aspect-reauth password:\n" ++ e2)]) := by
  refine ⟨fun e h1 h2 => by simp [loginPhase, h1, h2],
    fun p e h1 h2 h3 => by simp [loginPhase, h1, h2, h3],
    fun e e2 h1 h2 => by simp [resolvePassword, h1, h2],
    fun e p h1 h2 => by
      cases h3 : env.setAR2 <;> simp [resolvePassword, h1, h2, h3],
    fun e p e2 h1 h2 h3 => by simp [resolvePassword, h1, h2, h3]⟩

/-- C4 (amended) witness: the fallback and the fatal branches at concrete
keychain outcomes. -/
theorem keychain_error_policy_witness :
    (resolvePassword
      ⟨"devbox", "x.example.com", "helper", false, false, false,
        .Specify false, []⟩
      ⟨none, .error "u", .ok ⟨true, ""⟩, .ok ⟨true, ""⟩, .ok true,
        .ok "pw", .ok (), .ok ⟨true, ""⟩, .error "locked", .ok "secret123",
        .error "store failed", .ok ⟨true, ""⟩, .ok ⟨true, ""⟩, .ok ()⟩).1 =
      .ok "secret123" ∧
    (loginPhase
      ⟨"devbox", "x.example.com", "helper", false, false, false,
        .Specify false, []⟩
      ⟨none, .error "u", .ok ⟨true, ""⟩, .ok ⟨true, ""⟩, .ok true,
        .error "no keychain", .ok (), .ok ⟨true, ""⟩, .error "locked",
        .ok "secret123", .error "store failed", .ok ⟨true, ""⟩,
        .ok ⟨true, ""⟩, .ok ()⟩).1 =
      .error (.keychainError "AspectWorkflows") :=
  ⟨(keychain_error_policy _ _).2.2.2.1 "locked" "secret123" rfl rfl,
   (keychain_error_policy _ _).1 "no keychain" rfl rfl⟩

/-! ## C8 — the push invocation -/

/-- Appending arguments distributes over the full argv. -/
theorem argvFull_args (c : Cmd) (l : List String) :
    (c.args l).argvFull = c.argvFull ++ l := by
  simp [Cmd.args, Cmd.argvFull]

/-- C8: the push runs, through the session's own command builder, the
invocation `ssh <extraArgs> [-S <socketPath>] -xT <restrictive options> --
<host> keyctl padd user <keyName> <selector>`, with keyName
`keyring-rs:<remoteUri>@AspectWorkflows` and selector `@s` when the session
keyring is selected and `@u` otherwise; when spawned it writes exactly the
credential bytes to the subprocess input and closes it, and a non-zero exit
is fatal with a RemoteSyncError carrying the captured remote error text. -/
theorem push_invocation_spec (a : Args) (m : SshMuxSt) (pw : String)
    (env : Env) (out : Output) (hp : env.push = .ok out) :
    (syncPhase a m pw env).2.head? = some (.pushRun
      (["ssh"] ++ m.ssh_args ++
        (match m.socket with | some d => ["-S", sockPath d] | none => []) ++
        ["-xT", "-oPermitLocalCommand=no", "-oClearAllForwardings=yes",
         "-oRemoteCommand=none", "-oForwardAgent=no", "-oBatchMode=yes",
         "--", m.host, "keyctl", "padd", "user",
         "keyring-rs:" ++ a.remote ++ "@AspectWorkflows",
         if a.session_keyring then "@s" else "@u"])
      (some pw)) ∧
    (out.success = false →
      (syncPhase a m pw env).1 = .error (.remoteSyncError out.stderr)) := by
  have hargv : ((m.command "keyctl").args
      ["padd", "user", keyName a.remote, keychainSel a.session_keyring]).argvFull =
      ["ssh"] ++ m.ssh_args ++
        (match m.socket with | some d => ["-S", sockPath d] | none => []) ++
        ["-xT", "-oPermitLocalCommand=no", "-oClearAllForwardings=yes",
         "-oRemoteCommand=none", "-oForwardAgent=no", "-oBatchMode=yes",
         "--", m.host, "keyctl", "padd", "user",
         "keyring-rs:" ++ a.remote ++ "@AspectWorkflows",
         if a.session_keyring then "@s" else "@u"] := by
    rw [argvFull_args]
    have h := commandArgv_eq m "keyctl"
    rw [SshMuxSt.commandArgv] at h
    rw [h]
    cases m.socket <;> simp [keyName, keychainSel]
  constructor
  · show (syncPhase a m pw env).2.head? = _
    unfold syncPhase
    rw [hp]
    cases hs : out.success with
    | false => simp [hargv, hs]
    | true =>
      rcases hr : needsRefreshRun (m.command a.credential_helper)
          a.credential_helper a.remote env.recheck with ⟨r, tr⟩
      rcases r with e | b
      · simp [hr, hargv, hs]
      · cases b <;> simp [hr, hargv, hs]
  · intro hs
    unfold syncPhase
    rw [hp]
    simp [hs]

/-- C8 witness: a concrete failing push through a socket-owning session. -/
theorem push_invocation_spec_witness :
    (syncPhase
      ⟨"devbox", "x.example.com", "helper", false, false, false,
        .Specify true, []⟩
      ⟨"devbox", [], some "/tmp/aspect-reauth-x"⟩ "secret123"
      ⟨none, .ok "/tmp/aspect-reauth-x", .ok ⟨true, ""⟩, .ok ⟨true, ""⟩,
        .ok true, .ok "pw", .ok (), .ok ⟨true, ""⟩, .ok "secret123",
        .ok "pw", .ok (), .ok ⟨false, "permission denied"⟩, .ok ⟨true, ""⟩,
        .ok ()⟩).2.head? = some (.pushRun
      (["ssh"] ++ [] ++ ["-S", sockPath "/tmp/aspect-reauth-x"] ++
        ["-xT", "-oPermitLocalCommand=no", "-oClearAllForwardings=yes",
         "-oRemoteCommand=none", "-oForwardAgent=no", "-oBatchMode=yes",
         "--", "devbox", "keyctl", "padd", "user",
         "keyring-rs:" ++ "x.example.com" ++ "@AspectWorkflows",
         if false then "@s" else "@u"])
      (some "secret123")) ∧
    (syncPhase
      ⟨"devbox", "x.example.com", "helper", false, false, false,
        .Specify true, []⟩
      ⟨"devbox", [], some "/tmp/aspect-reauth-x"⟩ "secret123"
      ⟨none, .ok "/tmp/aspect-reauth-x", .ok ⟨true, ""⟩, .ok ⟨true, ""⟩,
        .ok true, .ok "pw", .ok (), .ok ⟨true, ""⟩, .ok "secret123",
        .ok "pw", .ok (), .ok ⟨false, "permission denied"⟩, .ok ⟨true, ""⟩,
        .ok ()⟩).1 = .error (.remoteSyncError "permission denied") :=
  ⟨(push_invocation_spec _ _ _ _ ⟨false, "permission denied"⟩ rfl).1,
   (push_invocation_spec _ _ _ _ ⟨false, "permission denied"⟩ rfl).2 rfl⟩


/-! ## C5 — bounded single re-check after the push -/

theorem countPush_needsRefreshRun (b : Cmd) (h r : String)
    (p : Except String Output) :
    (needsRefreshRun b h r p).2.countP isPushEvent = 0 := by
  cases p <;> simp [needsRefreshRun, isPushEvent]

theorem countProbe_needsRefreshRun (b : Cmd) (h r : String)
    (p : Except String Output) :
    (needsRefreshRun b h r p).2.countP isProbeEvent = 1 := by
  cases p <;> simp [needsRefreshRun, isProbeEvent]

theorem countPush_loginPhase (a : Args) (env : Env) :
    (loginPhase a env).2.countP isPushEvent = 0 := by
  unfold loginPhase
  cases env.login with
  | error e => simp [isPushEvent]
  | ok b =>
    cases b
    · simp [isPushEvent]
    · cases env.getAW1 with
      | error e => simp [isPushEvent]
      | ok p =>
        cases env.setAR1 with
        | error e => simp [isPushEvent]
        | ok u => simp [isPushEvent]

theorem countPush_localPhase (a : Args) (env : Env) :
    (localPhase a env).2.countP isPushEvent = 0 := by
  unfold localPhase
  by_cases hf : a.force_local
  · simp only [hf, if_true]
    rcases hLp : loginPhase a env with ⟨r2, tr2⟩
    have h2 := countPush_loginPhase a env
    rw [hLp] at h2
    simp [h2]
  · simp only [hf, if_false]
    rcases hn : needsRefreshRun (Cmd.new a.credential_helper)
        a.credential_helper a.remote env.localProbe with ⟨r, tr⟩
    have h1 := countPush_needsRefreshRun (Cmd.new a.credential_helper)
      a.credential_helper a.remote env.localProbe
    rw [hn] at h1
    rcases r with e | b
    · simp [h1]
    · cases b
      · simp [h1]
      · rcases hLp : loginPhase a env with ⟨r2, tr2⟩
        have h2 := countPush_loginPhase a env
        rw [hLp] at h2
        simp [List.countP_append, h1, h2]

theorem countPush_remoteCheck (a : Args) (m : SshMuxSt)
    (p : Except String Output) :
    (remoteCheck a m p).2.countP isPushEvent = 0 := by
  unfold remoteCheck
  by_cases hf : a.force_remote
  · simp [hf]
  · simp only [hf, if_false]
    exact countPush_needsRefreshRun _ _ _ _

theorem countPush_resolvePassword (a : Args) (env : Env) :
    (resolvePassword a env).2.countP isPushEvent = 0 := by
  unfold resolvePassword
  cases env.getAR with
  | ok p => simp
  | error e =>
    cases env.getAW2 with
    | error e2 => simp
    | ok p =>
      cases env.setAR2 with
      | error e3 => simp [isPushEvent]
      | ok u => simp

theorem countPush_syncPhase (a : Args) (m : SshMuxSt) (pw : String)
    (env : Env) :
    (syncPhase a m pw env).2.countP isPushEvent = 1 := by
  unfold syncPhase
  cases env.push with
  | error e => simp [isPushEvent]
  | ok out =>
    cases hs : out.success with
    | false => simp [hs, isPushEvent]
    | true =>
      rcases hn : needsRefreshRun (m.command a.credential_helper)
          a.credential_helper a.remote env.recheck with ⟨r, tr⟩
      have h1 := countPush_needsRefreshRun (m.command a.credential_helper)
        a.credential_helper a.remote env.recheck
      rw [hn] at h1
      rcases r with e | b
      · simp [hs, h1, isPushEvent]
      · cases b <;> simp [hs, h1, isPushEvent, List.countP_append]

theorem countPush_mainBody (a : Args) (m : SshMuxSt) (env : Env) :
    (mainBody a m env).2.countP isPushEvent ≤ 1 := by
  unfold mainBody
  rcases hl : localPhase a env with ⟨r0, tr0⟩
  have h0 := countPush_localPhase a env
  rw [hl] at h0
  rcases r0 with e | u
  · simp [h0]
  · rcases hr : remoteCheck a m env.remoteProbe with ⟨r1, tr1⟩
    have h1 := countPush_remoteCheck a m env.remoteProbe
    rw [hr] at h1
    rcases r1 with e | b
    · simp [List.countP_append, h0, h1]
    · cases b
      · simp [List.countP_append, h0, h1, isPushEvent]
      · rcases hp : resolvePassword a env with ⟨r2, tr2⟩
        have h2 := countPush_resolvePassword a env
        rw [hp] at h2
        rcases r2 with e | pw
        · simp [List.countP_append, h0, h1, h2]
        · rcases hsy : syncPhase a m pw env with ⟨r3, tr3⟩
          have h3 := countPush_syncPhase a m pw env
          rw [hsy] at h3
          simp [List.countP_append, h0, h1, h2, hsy, h3]

theorem countPush_finish (host : String) (sa : List String)
    (so : Option String) (env : Env) :
    (SshMux_finish host sa so env).2.countP isPushEvent = 0 := by
  unfold SshMux_finish
  cases env.master with
  | error e => cases so <;> simp [isPushEvent, List.countP_append]
  | ok out =>
    cases hs : out.success <;> cases so <;>
      simp [hs, isPushEvent, List.countP_append]

theorem countPush_new (host : String) (sa : List String) (cs : CreateSocket)
    (env : Env) :
    (SshMux_new host sa cs env).2.countP isPushEvent = 0 := by
  unfold SshMux_new
  rcases hc : (match cs.into_option_bool with
    | some v => v
    | none => infer_create_socket host env.gquery) with _ | _
  · simp only [hc]
    exact countPush_finish host sa none env
  · cases ht : env.tempdir with
    | error e => simp [hc, ht]
    | ok d =>
      simp only [hc, ht]
      exact countPush_finish host sa (some d) env

theorem countPush_drop (m : SshMuxSt) (td : Except String Unit) :
    (SshMux_drop m td).countP isPushEvent = 0 := by
  unfold SshMux_drop SshMuxSt.cleanup
  cases m with
  | mk h sa so =>
    cases so <;> cases td <;> simp [isPushEvent, List.countP_append]

theorem countPush_runMain (a : Args) (env : Env) :
    (runMain a env).2.countP isPushEvent ≤ 1 := by
  unfold runMain
  rcases hn : SshMux_new a.host a.ssh_args a.create_socket env with ⟨r, tr0⟩
  have h0 := countPush_new a.host a.ssh_args a.create_socket env
  rw [hn] at h0
  rcases r with e | m
  · simp [h0]
  · rcases hb : mainBody a m env with ⟨res, tr1⟩
    have h1 := countPush_mainBody a m env
    rw [hb] at h1
    have h2 := countPush_drop m env.teardown
    simp [List.countP_append, h0, hb, h1, h2]

/-- C5: after a successful push, the remote freshness check is re-run
exactly once (the post-push trace holds exactly one probe invocation and
the whole phase exactly one push); if the re-check still reports "needs
refresh" the run fails with the distinct "Try rerunning with --force"
error instead of pushing again; and no run ever issues more than one push
invocation, so there is no retry loop. -/
theorem push_single_recheck (a : Args) (m : SshMuxSt) (pw : String)
    (env : Env) (out : Output)
    (hp : env.push = .ok out) (hs : out.success = true) :
    (syncPhase a m pw env).2.countP isProbeEvent = 1 ∧
    (syncPhase a m pw env).2.countP isPushEvent = 1 ∧
    ((needsRefreshRun (m.command a.credential_helper) a.credential_helper
        a.remote env.recheck).1 = .ok true →
      (syncPhase a m pw env).1 = .error (.stillInvalid a.host)) ∧
    (runMain a env).2.countP isPushEvent ≤ 1 := by
  refine ⟨?_, countPush_syncPhase a m pw env, ?_, countPush_runMain a env⟩
  · unfold syncPhase
    rw [hp]
    rcases hn : needsRefreshRun (m.command a.credential_helper)
        a.credential_helper a.remote env.recheck with ⟨r, tr⟩
    have h1 := countProbe_needsRefreshRun (m.command a.credential_helper)
      a.credential_helper a.remote env.recheck
    rw [hn] at h1
    rcases r with e | b
    · simp [hs, hn, isProbeEvent, h1]
    · cases b <;> simp [hs, hn, isProbeEvent, List.countP_append, h1]
  · intro hre
    unfold syncPhase
    rw [hp]
    rcases hn : needsRefreshRun (m.command a.credential_helper)
        a.credential_helper a.remote env.recheck with ⟨r, tr⟩
    rw [hn] at hre
    simp at hre
    subst hre
    simp [hs, hn]

/-- C5 witness: a successful push whose re-check still reports "needs
refresh" at concrete inputs. -/
theorem push_single_recheck_witness :
    (syncPhase
      ⟨"devbox", "x.example.com", "helper", false, true, false,
        .Specify false, []⟩
      ⟨"devbox", [], none⟩ "secret123"
      ⟨none, .error "u", .ok ⟨true, ""⟩, .ok ⟨true, ""⟩, .ok true,
        .ok "pw", .ok (), .ok ⟨true, ""⟩, .ok "secret123", .ok "pw",
        .ok (), .ok ⟨true, ""⟩, .ok ⟨false, "please run helper login"⟩,
        .ok ()⟩).2.countP isProbeEvent = 1 ∧
    (syncPhase
      ⟨"devbox", "x.example.com", "helper", false, true, false,
        .Specify false, []⟩
      ⟨"devbox", [], none⟩ "secret123"
      ⟨none, .error "u", .ok ⟨true, ""⟩, .ok ⟨true, ""⟩, .ok true,
        .ok "pw", .ok (), .ok ⟨true, ""⟩, .ok "secret123", .ok "pw",
        .ok (), .ok ⟨true, ""⟩, .ok ⟨false, "please run helper login"⟩,
        .ok ()⟩).2.countP isPushEvent = 1 ∧
    ((needsRefreshRun ((SshMuxSt.mk "devbox" [] none).command "helper")
        "helper" "x.example.com"
        (.ok ⟨false, "please run helper login"⟩)).1 = .ok true →
      (syncPhase
        ⟨"devbox", "x.example.com", "helper", false, true, false,
          .Specify false, []⟩
        ⟨"devbox", [], none⟩ "secret123"
        ⟨none, .error "u", .ok ⟨true, ""⟩, .ok ⟨true, ""⟩, .ok true,
          .ok "pw", .ok (), .ok ⟨true, ""⟩, .ok "secret123", .ok "pw",
          .ok (), .ok ⟨true, ""⟩, .ok ⟨false, "please run helper login"⟩,
          .ok ()⟩).1 = .error (.stillInvalid "devbox")) ∧
    (runMain
      ⟨"devbox", "x.example.com", "helper", false, true, false,
        .Specify false, []⟩
      ⟨none, .error "u", .ok ⟨true, ""⟩, .ok ⟨true, ""⟩, .ok true,
        .ok "pw", .ok (), .ok ⟨true, ""⟩, .ok "secret123", .ok "pw",
        .ok (), .ok ⟨true, ""⟩, .ok ⟨false, "please run helper login"⟩,
        .ok ()⟩).2.countP isPushEvent ≤ 1 :=
  push_single_recheck _ _ _ _ ⟨true, ""⟩ rfl rfl



/-! ## C9 — no control-socket temporary directory remains -/

theorem dirsAfter_append (t1 t2 : List Event) (acc : List String) :
    dirsAfter (t1 ++ t2) acc = dirsAfter t2 (dirsAfter t1 acc) := by
  induction t1 generalizing acc with
  | nil => rfl
  | cons e es ih => cases e <;> simp [dirsAfter, ih]

theorem dirsAfter_neutral (t : List Event) (acc : List String)
    (h : t.all treeNeutral = true) : dirsAfter t acc = acc := by
  induction t generalizing acc with
  | nil => rfl
  | cons e es ih =>
    simp only [List.all_cons, Bool.and_eq_true] at h
    cases e <;> simp_all [dirsAfter, treeNeutral]

theorem allNeutral_needsRefreshRun (b : Cmd) (h r : String)
    (p : Except String Output) :
    (needsRefreshRun b h r p).2.all treeNeutral = true := by
  cases p <;> simp [needsRefreshRun, treeNeutral]

theorem allNeutral_loginPhase (a : Args) (env : Env) :
    (loginPhase a env).2.all treeNeutral = true := by
  unfold loginPhase
  cases env.login with
  | error e => simp [treeNeutral]
  | ok b =>
    cases b
    · simp [treeNeutral]
    · cases env.getAW1 with
      | error e => simp [treeNeutral]
      | ok p =>
        cases env.setAR1 with
        | error e => simp [treeNeutral]
        | ok u => simp [treeNeutral]

theorem allNeutral_localPhase (a : Args) (env : Env) :
    (localPhase a env).2.all treeNeutral = true := by
  unfold localPhase
  by_cases hf : a.force_local
  · simp only [hf, if_true]
    rcases hLp : loginPhase a env with ⟨r2, tr2⟩
    have h2 := allNeutral_loginPhase a env
    rw [hLp] at h2
    simp [h2]
  · simp only [hf, if_false]
    rcases hn : needsRefreshRun (Cmd.new a.credential_helper)
        a.credential_helper a.remote env.localProbe with ⟨r, tr⟩
    have h1 := allNeutral_needsRefreshRun (Cmd.new a.credential_helper)
      a.credential_helper a.remote env.localProbe
    rw [hn] at h1
    rcases r with e | b
    · simp [h1]
    · cases b
      · simp [h1]
      · rcases hLp : loginPhase a env with ⟨r2, tr2⟩
        have h2 := allNeutral_loginPhase a env
        rw [hLp] at h2
        simp [List.all_append, h1, h2]

theorem allNeutral_remoteCheck (a : Args) (m : SshMuxSt)
    (p : Except String Output) :
    (remoteCheck a m p).2.all treeNeutral = true := by
  unfold remoteCheck
  by_cases hf : a.force_remote
  · simp [hf]
  · simp only [hf, if_false]
    exact allNeutral_needsRefreshRun _ _ _ _

theorem allNeutral_resolvePassword (a : Args) (env : Env) :
    (resolvePassword a env).2.all treeNeutral = true := by
  unfold resolvePassword
  cases env.getAR with
  | ok p => simp
  | error e =>
    cases env.getAW2 with
    | error e2 => simp
    | ok p =>
      cases env.setAR2 with
      | error e3 => simp [treeNeutral]
      | ok u => simp

theorem allNeutral_syncPhase (a : Args) (m : SshMuxSt) (pw : String)
    (env : Env) :
    (syncPhase a m pw env).2.all treeNeutral = true := by
  unfold syncPhase
  cases env.push with
  | error e => simp [treeNeutral]
  | ok out =>
    cases hs : out.success with
    | false => simp [hs, treeNeutral]
    | true =>
      rcases hn : needsRefreshRun (m.command a.credential_helper)
          a.credential_helper a.remote env.recheck with ⟨r, tr⟩
      have h1 := allNeutral_needsRefreshRun (m.command a.credential_helper)
        a.credential_helper a.remote env.recheck
      rw [hn] at h1
      rcases r with e | b
      · simp [hs, h1, treeNeutral]
      · cases b <;> simp [hs, h1, treeNeutral, List.all_append]

theorem allNeutral_mainBody (a : Args) (m : SshMuxSt) (env : Env) :
    (mainBody a m env).2.all treeNeutral = true := by
  unfold mainBody
  rcases hl : localPhase a env with ⟨r0, tr0⟩
  have h0 := allNeutral_localPhase a env
  rw [hl] at h0
  rcases r0 with e | u
  · simp [h0]
  · rcases hr : remoteCheck a m env.remoteProbe with ⟨r1, tr1⟩
    have h1 := allNeutral_remoteCheck a m env.remoteProbe
    rw [hr] at h1
    rcases r1 with e | b
    · simp [List.all_append, h0, h1]
    · cases b
      · simp [List.all_append, h0, h1, treeNeutral]
      · rcases hp : resolvePassword a env with ⟨r2, tr2⟩
        have h2 := allNeutral_resolvePassword a env
        rw [hp] at h2
        rcases r2 with e | pw
        · simp [List.all_append, h0, h1, h2]
        · rcases hsy : syncPhase a m pw env with ⟨r3, tr3⟩
          have h3 := allNeutral_syncPhase a m pw env
          rw [hsy] at h3
          simp [List.all_append, h0, h1, h2, hsy, h3]

theorem finish_dirs_err (host : String) (sa : List String)
    (so : Option String) (env : Env) (e : RunError) (tr : List Event)
    (h : SshMux_finish host sa so env = (.error e, tr)) :
    dirsAfter tr [] = [] := by
  unfold SshMux_finish at h
  cases hm : env.master with
  | error e2 =>
    rw [hm] at h
    cases so <;> simp at h <;> rcases h with ⟨h1, h2⟩ <;> subst h2 <;>
      simp [dirsAfter]
  | ok out =>
    rw [hm] at h
    cases hs : out.success with
    | true => cases so <;> simp [hs] at h
    | false =>
      cases so <;> simp [hs] at h <;> rcases h with ⟨h1, h2⟩ <;>
        subst h2 <;> simp [dirsAfter]

theorem finish_dirs_ok (host : String) (sa : List String)
    (so : Option String) (env : Env) (m : SshMuxSt) (tr : List Event)
    (h : SshMux_finish host sa so env = (.ok m, tr)) :
    m.socket = so ∧ dirsAfter tr [] =
      (match so with | some d => [d] | none => []) := by
  unfold SshMux_finish at h
  cases hm : env.master with
  | error e2 => rw [hm] at h; cases so <;> simp at h
  | ok out =>
    rw [hm] at h
    cases hs : out.success with
    | false => cases so <;> simp [hs] at h
    | true =>
      cases so <;> simp [hs] at h <;> rcases h with ⟨hm2, h3⟩ <;>
        subst h3 <;> subst hm2 <;> simp [dirsAfter]

theorem new_dirs_err (host : String) (sa : List String) (cs : CreateSocket)
    (env : Env) (e : RunError) (tr : List Event)
    (h : SshMux_new host sa cs env = (.error e, tr)) :
    dirsAfter tr [] = [] := by
  unfold SshMux_new at h
  rcases hc : (match cs.into_option_bool with
    | some v => v
    | none => infer_create_socket host env.gquery) with _ | _
  · rw [hc] at h
    exact finish_dirs_err host sa none env e tr h
  · rw [hc] at h
    cases ht : env.tempdir with
    | error e2 =>
      rw [ht] at h
      simp at h
      rcases h with ⟨h1, h2⟩
      subst h2
      rfl
    | ok d =>
      rw [ht] at h
      exact finish_dirs_err host sa (some d) env e tr h

theorem new_dirs_ok (host : String) (sa : List String) (cs : CreateSocket)
    (env : Env) (m : SshMuxSt) (tr : List Event)
    (h : SshMux_new host sa cs env = (.ok m, tr)) :
    dirsAfter tr [] =
      (match m.socket with | some d => [d] | none => []) := by
  unfold SshMux_new at h
  rcases hc : (match cs.into_option_bool with
    | some v => v
    | none => infer_create_socket host env.gquery) with _ | _
  · rw [hc] at h
    have := finish_dirs_ok host sa none env m tr h
    rw [this.1]
    exact this.2
  · rw [hc] at h
    cases ht : env.tempdir with
    | error e2 => rw [ht] at h; simp at h
    | ok d =>
      rw [ht] at h
      have := finish_dirs_ok host sa (some d) env m tr h
      rw [this.1]
      exact this.2

theorem drop_dirs (m : SshMuxSt) (td : Except String Unit)
    (acc : List String) :
    dirsAfter (SshMux_drop m td) acc =
      (match m.socket with
       | some d => acc.filter (fun x => x ≠ d)
       | none => acc) := by
  cases m with
  | mk h sa so =>
    cases so <;> cases td <;>
      simp [SshMux_drop, SshMuxSt.cleanup, dirsAfter]

/-- C9: on every success or failure path of the run, the control-socket
temporary directory created for the session (when one was created) has
been removed by the end of the run's event trace: folding the whole trace
over the on-disk directory set leaves nothing behind. -/
theorem no_tempdir_remains (a : Args) (env : Env) :
    dirsAfter (runMain a env).2 [] = [] := by
  unfold runMain
  rcases hn : SshMux_new a.host a.ssh_args a.create_socket env with ⟨r, tr0⟩
  rcases r with e | m
  · simpa using new_dirs_err a.host a.ssh_args a.create_socket env e tr0 hn
  · rcases hb : mainBody a m env with ⟨res, tr1⟩
    simp only
    rw [dirsAfter_append, dirsAfter_append]
    rw [new_dirs_ok a.host a.ssh_args a.create_socket env m tr0 hn]
    have hneutral := allNeutral_mainBody a m env
    rw [hb] at hneutral
    rw [hb, dirsAfter_neutral tr1 _ hneutral]
    rw [drop_dirs]
    cases m.socket with
    | none => rfl
    | some d => simp

end AspectReauth
